import Mathlib

/-!
Shallow embedding of the rust-resource-monitor metrics pipeline.

Data model from src/src/metrics.rs; the bounded history buffer from
src/src/storage.rs; the RPC read operations from src/src/rpc.rs; the HTTP
history read from src/src/api.rs; the sampling/aggregation tick from
src/src/aggregator.rs; the bind-failure handling from src/src/rpc.rs and
src/src/bin/client.rs.

Numeric conventions: Rust f32 values are modelled as rationals, u64 and
u128 counters and usize sizes as Nat. Durations are modelled in
nanoseconds (the precision of std::time::Duration) where sub-millisecond
distinctions matter, otherwise in the unit the code uses.
-/

/-- CpuMetrics from src/src/metrics.rs. -/
structure CpuMetrics where
  total_usage_pct : ℚ
  per_core_usage_pct : List ℚ
  load_avg_1 : ℚ
  load_avg_5 : ℚ
  load_avg_15 : ℚ
deriving DecidableEq

/-- MemoryMetrics from src/src/metrics.rs. -/
structure MemoryMetrics where
  total_bytes : Nat
  used_bytes : Nat
  available_bytes : Nat
  swap_total_bytes : Nat
  swap_used_bytes : Nat
deriving DecidableEq

/-- NetworkMetrics from src/src/metrics.rs. -/
structure NetworkMetrics where
  rx_bytes_total : Nat
  tx_bytes_total : Nat
  rx_bytes_per_sec : ℚ
  tx_bytes_per_sec : ℚ
deriving DecidableEq

/-- DiskMetrics from src/src/metrics.rs. -/
structure DiskMetrics where
  total_bytes : Nat
  available_bytes : Nat
  used_pct : ℚ
deriving DecidableEq

/-- MetricsSnapshot from src/src/metrics.rs. -/
structure MetricsSnapshot where
  timestamp_ms : Nat
  cpu : CpuMetrics
  memory : MemoryMetrics
  network : NetworkMetrics
  disk : DiskMetrics
deriving DecidableEq

/-- MetricsBuffer from src/src/storage.rs. The VecDeque is modelled as a
list whose head is the deque front (oldest entry) and whose last element
is the deque back (newest entry). -/
structure MetricsBuffer where
  capacity : Nat
  inner : List MetricsSnapshot
deriving DecidableEq

/-- MetricsBuffer::new (src/src/storage.rs lines 11-16): empty deque. -/
def MetricsBuffer.new (capacity : Nat) : MetricsBuffer :=
  { capacity := capacity, inner := [] }

/-- MetricsBuffer::push (src/src/storage.rs lines 18-31): if the deque has
reached capacity, pop the front (oldest) entry, then push the snapshot at
the back. -/
def MetricsBuffer.push (buf : MetricsBuffer) (snapshot : MetricsSnapshot) : MetricsBuffer :=
  if buf.capacity ≤ buf.inner.length then
    { buf with inner := buf.inner.tail ++ [snapshot] }
  else
    { buf with inner := buf.inner ++ [snapshot] }

/-- A sequence of push calls, oldest first. -/
def MetricsBuffer.pushAll (buf : MetricsBuffer) (snaps : List MetricsSnapshot) : MetricsBuffer :=
  snaps.foldl MetricsBuffer.push buf

/-- MetricsBuffer::latest (src/src/storage.rs lines 33-39): clone of the
back (newest) entry. -/
def MetricsBuffer.latest (buf : MetricsBuffer) : Option MetricsSnapshot :=
  buf.inner.getLast?

/-- MetricsBuffer::history (src/src/storage.rs lines 41-49):
take = limit.unwrap_or(len).min(len), then skip the first len - take
entries of the deque iteration (which runs front to back, oldest first). -/
def MetricsBuffer.history (buf : MetricsBuffer) (limit : Option Nat) : List MetricsSnapshot :=
  let len := buf.inner.length
  let take := min (limit.getD len) len
  buf.inner.drop (len - take)

/-- MetricsRpc::history served by MetricsRpcServer (src/src/rpc.rs lines
40-56): read the full buffer history, retain entries with
timestamp_ms ≥ since_ms when given, then when a limit is given keep the
last min(limit, len) entries by skipping len - take. -/
def MetricsRpcServer.history (buf : MetricsBuffer) (limit : Option Nat)
    (since_ms : Option Nat) : List MetricsSnapshot :=
  let v := buf.history none
  let v := match since_ms with
    | some s => v.filter (fun snap => decide (s ≤ snap.timestamp_ms))
    | none => v
  match limit with
  | some limit =>
      let len := v.length
      let take := min limit len
      v.drop (len - take)
  | none => v

/-- Outcome of the synchronous decision prefix of MetricsRpc::next_after:
either it returns None before waiting, or it returns the buffered latest
snapshot immediately (fast path), or it subscribes to the broadcast relay
and waits with the given budget. -/
inductive NextAfterOutcome where
  | noData : NextAfterOutcome
  | immediate (snap : MetricsSnapshot) : NextAfterOutcome
  | subscribeAndWait (waitNs : Nat) : NextAfterOutcome
deriving DecidableEq

/-- MetricsRpc::next_after served by MetricsRpcServer (src/src/rpc.rs
lines 58-108), up to the point where it either returns or starts waiting
on the broadcast relay. untilDeadlineNs is the saturating duration from
now to the caller deadline ctx.deadline, in nanoseconds (Duration::ZERO,
i.e. 0, when the deadline already passed). The wanted timeout is
timeout_ms.max(1) milliseconds; the wait budget is its minimum with the
remaining deadline. -/
def MetricsRpcServer.next_after_decision (buf : MetricsBuffer)
    (untilDeadlineNs : Nat) (since_ms timeout_ms : Nat) : NextAfterOutcome :=
  if untilDeadlineNs = 0 then
    NextAfterOutcome.noData
  else
    let wantTimeoutNs := (max timeout_ms 1) * 1000000
    let waitNs := min wantTimeoutNs untilDeadlineNs
    if waitNs = 0 then
      NextAfterOutcome.noData
    else
      match buf.latest with
      | some latest =>
          if since_ms < latest.timestamp_ms then
            NextAfterOutcome.immediate latest
          else
            NextAfterOutcome.subscribeAndWait waitNs
      | none => NextAfterOutcome.subscribeAndWait waitNs

/-- get_history from src/src/api.rs lines 1014-1047: read the full buffer
history, filter by timestamp_ms ≥ since_ms and timestamp_ms ≤ until_ms
when given, then when a limit is given keep the last min(limit, len)
entries by skipping len - take. -/
def get_history (buf : MetricsBuffer) (limit since_ms until_ms : Option Nat) :
    List MetricsSnapshot :=
  let hist := ((buf.history none).filter (fun s =>
      match since_ms with
      | some ts => decide (ts ≤ s.timestamp_ms)
      | none => true)).filter (fun s =>
      match until_ms with
      | some ts => decide (s.timestamp_ms ≤ ts)
      | none => true)
  match limit with
  | some limit =>
      let len := hist.length
      let take := min limit len
      hist.drop (len - take)
  | none => hist

/-- The memory record exactly as constructed inside Aggregator::run
(src/src/aggregator.rs lines 126-130): total/used/available only. The
aggregator in this tree builds MetricsSnapshot without the swap and disk
fields that src/src/metrics.rs declares, so the snapshot it publishes is
embedded as its own record with precisely the fields the constructor at
lines 117-137 fills in. -/
structure AggMemoryMetrics where
  total_bytes : Nat
  used_bytes : Nat
  available_bytes : Nat
deriving DecidableEq

/-- The snapshot exactly as constructed inside Aggregator::run
(src/src/aggregator.rs lines 117-137). -/
structure AggSnapshot where
  timestamp_ms : Nat
  cpu : CpuMetrics
  memory : AggMemoryMetrics
  network : NetworkMetrics
deriving DecidableEq

/-- AggregatorConfig from src/src/aggregator.rs lines 11-19; the interval
is built with Duration::from_millis in src/src/bin/server.rs line 54, so
it is a whole number of milliseconds. -/
structure AggregatorConfig where
  interval_ms : Nat
deriving DecidableEq

/-- The loop-carried state of Aggregator::run: the is_first flag and the
previous cumulative counters last_rx_total and last_tx_total
(src/src/aggregator.rs lines 44-46 and 55). The previous tick instant is
folded into the elapsed-time input of each tick. -/
structure AggState where
  is_first : Bool
  last_rx_total : Nat
  last_tx_total : Nat
deriving DecidableEq

/-- The state at the top of the loop on the first iteration: is_first is
true and the counters hold the baseline readings taken before the loop
(src/src/aggregator.rs lines 44-46, 55). -/
def AggState.initial (rx tx : Nat) : AggState :=
  { is_first := true, last_rx_total := rx, last_tx_total := tx }

/-- One refreshed reading of the external RawMetricsSource, as consumed by
one loop iteration of Aggregator::run: per-core usage, load averages,
memory in KiB (sysinfo returns KiB), the summed cumulative RX/TX byte
counters, the measured wall-clock seconds since the previous tick
(saturating, hence non-negative in the real program), and the wall-clock
timestamp. -/
structure RawSample where
  per_core : List ℚ
  load1 : ℚ
  load5 : ℚ
  load15 : ℚ
  total_memory_kib : Nat
  used_memory_kib : Nat
  available_memory_kib : Nat
  rx_total : Nat
  tx_total : Nat
  elapsed_secs : ℚ
  now_ms : Nat
deriving DecidableEq

/-- One iteration of the sampling loop in Aggregator::run
(src/src/aggregator.rs lines 65-144): synthesize dt on the warm-up tick as
interval.max(0.001) seconds, skip the tick when dt ≤ 0, otherwise compute
the per-core mean, the reset-tolerant network rates, build the snapshot
and publish it, then update the loop state. Returns the published
snapshot (none when the tick was skipped) and the next state. -/
def Aggregator.tick (config : AggregatorConfig) (st : AggState) (raw : RawSample) :
    Option AggSnapshot × AggState :=
  let dt : ℚ :=
    if st.is_first then max ((config.interval_ms : ℚ) / 1000) (1 / 1000)
    else raw.elapsed_secs
  if dt ≤ 0 then
    (none, st)
  else
    let per_core := raw.per_core
    let total_pct : ℚ :=
      if per_core.isEmpty then 0 else per_core.sum / (per_core.length : ℚ)
    let rx_rate : ℚ :=
      if st.is_first then 0
      else if st.last_rx_total ≤ raw.rx_total then
        ((raw.rx_total - st.last_rx_total : Nat) : ℚ) / dt
      else 0
    let tx_rate : ℚ :=
      if st.is_first then 0
      else if st.last_tx_total ≤ raw.tx_total then
        ((raw.tx_total - st.last_tx_total : Nat) : ℚ) / dt
      else 0
    let snapshot : AggSnapshot :=
      { timestamp_ms := raw.now_ms
        cpu :=
          { total_usage_pct := total_pct
            per_core_usage_pct := per_core
            load_avg_1 := raw.load1
            load_avg_5 := raw.load5
            load_avg_15 := raw.load15 }
        memory :=
          { total_bytes := raw.total_memory_kib * 1024
            used_bytes := raw.used_memory_kib * 1024
            available_bytes := raw.available_memory_kib * 1024 }
        network :=
          { rx_bytes_total := raw.rx_total
            tx_bytes_total := raw.tx_total
            rx_bytes_per_sec := rx_rate
            tx_bytes_per_sec := tx_rate } }
    (some snapshot,
      { is_first := false, last_rx_total := raw.rx_total, last_tx_total := raw.tx_total })

/-- Observable effects a subsystem start-up routine performs on its
error path: emitting an error! log line, cancelling the process-wide
CancellationToken, or crashing with an unrecovered fault. -/
inductive SubsystemEffect where
  | logError : SubsystemEffect
  | cancelToken : SubsystemEffect
  | panicCrash : SubsystemEffect
deriving DecidableEq

/-- The bind-error arm of run_rpc_server (src/src/rpc.rs lines 119-125):
on a failed tarpc tcp listen it logs the error and returns from the task;
the cancellation token passed to it is not touched and nothing panics. -/
def run_rpc_server_bind_error_effects : List SubsystemEffect :=
  [SubsystemEffect.logError]

/-- The HTTP bind-error arm of the client main (src/src/bin/client.rs
lines 98-105): on a failed TcpListener::bind it logs the error, cancels
the process-wide token, and returns; nothing panics. -/
def client_http_bind_error_effects : List SubsystemEffect :=
  [SubsystemEffect.logError, SubsystemEffect.cancelToken]

/-- Stated after the spec's words for the RPC history contract (spec
section 4.4): filter the full history to entries with timestamp_ms ≥
since_ms when given, then truncate to the most recent limit entries,
returned oldest-first. Truncation is written as literally keeping the
newest limit entries of the filtered list. -/
def spec_rpc_history (l : List MetricsSnapshot) (limit since_ms : Option Nat) :
    List MetricsSnapshot :=
  let f := match since_ms with
    | some t => l.filter (fun s => decide (t ≤ s.timestamp_ms))
    | none => l
  match limit with
  | some k => (f.reverse.take k).reverse
  | none => f

/-- Stated after the spec's words for the HTTP history read (spec section
4.5): filter by the inclusive window [since_ms, until_ms] when given, then
truncate to the newest limit entries, returned oldest-first. -/
def spec_http_history (l : List MetricsSnapshot) (limit since_ms until_ms : Option Nat) :
    List MetricsSnapshot :=
  let f := l.filter (fun s =>
    (match since_ms with
      | some t => decide (t ≤ s.timestamp_ms)
      | none => true)
    && (match until_ms with
      | some t => decide (s.timestamp_ms ≤ t)
      | none => true))
  match limit with
  | some k => (f.reverse.take k).reverse
  | none => f

/-- Stated after the spec's words for total_usage_pct (spec section 4.1):
the arithmetic mean of all per-core percentages, 0 if no cores reported. -/
def spec_mean (l : List ℚ) : ℚ :=
  if l.length = 0 then 0 else l.sum / (l.length : ℚ)

/-- A concrete snapshot, shaped like the sample of the storage tests
(src/src/storage.rs lines 57-86) with integer-valued readings,
parameterized by its timestamp. -/
def demoSnapshot (ts : Nat) : MetricsSnapshot :=
  { timestamp_ms := ts
    cpu :=
      { total_usage_pct := 10
        per_core_usage_pct := [10, 20]
        load_avg_1 := 1
        load_avg_5 := 2
        load_avg_15 := 3 }
    memory :=
      { total_bytes := 100
        used_bytes := 50
        available_bytes := 50
        swap_total_bytes := 4096
        swap_used_bytes := 1024 }
    network :=
      { rx_bytes_total := 1000
        tx_bytes_total := 2000
        rx_bytes_per_sec := 10
        tx_bytes_per_sec := 20 }
    disk :=
      { total_bytes := 500000000000
        available_bytes := 200000000000
        used_pct := 60 } }

/-- A concrete buffer holding snapshots with timestamps 1000 and 2000
(capacity 10), as in the filter-then-truncate example of spec section 8. -/
def demoBuf2 : MetricsBuffer :=
  ((MetricsBuffer.new 10).push (demoSnapshot 1000)).push (demoSnapshot 2000)

/-- Concrete aggregator inputs used to witness the tick theorems: a
steady-state (non-first) tick whose RX counter decreased from 100 to 40
and whose TX counter grew from 50 to 70 over 2 seconds. -/
def demoConfig : AggregatorConfig := { interval_ms := 1000 }

def demoAggState : AggState :=
  { is_first := false, last_rx_total := 100, last_tx_total := 50 }

def demoRawSample : RawSample :=
  { per_core := [10, 20]
    load1 := 1
    load5 := 2
    load15 := 3
    total_memory_kib := 4
    used_memory_kib := 3
    available_memory_kib := 2
    rx_total := 40
    tx_total := 70
    elapsed_secs := 2
    now_ms := 5 }

/-- The snapshot Aggregator.tick publishes on the demo inputs: per-core
mean 15, RX rate 0 (counter decreased), TX rate (70 - 50) / 2 = 10. -/
def demoAggSnapshot : AggSnapshot :=
  { timestamp_ms := 5
    cpu :=
      { total_usage_pct := 15
        per_core_usage_pct := [10, 20]
        load_avg_1 := 1
        load_avg_5 := 2
        load_avg_15 := 3 }
    memory :=
      { total_bytes := 4096
        used_bytes := 3072
        available_bytes := 2048 }
    network :=
      { rx_bytes_total := 40
        tx_bytes_total := 70
        rx_bytes_per_sec := 0
        tx_bytes_per_sec := 10 } }

/-- Pushing preserves the fixed capacity. -/
theorem MetricsBuffer.push_capacity (buf : MetricsBuffer) (s : MetricsSnapshot) :
    (buf.push s).capacity = buf.capacity := by
  simp only [MetricsBuffer.push]
  split <;> rfl

/-- A sequence of pushes preserves the fixed capacity. -/
theorem MetricsBuffer.pushAll_capacity (buf : MetricsBuffer) (snaps : List MetricsSnapshot) :
    (buf.pushAll snaps).capacity = buf.capacity := by
  induction snaps generalizing buf with
  | nil => rfl
  | cons s rest ih =>
      have h := ih (buf.push s)
      simpa [MetricsBuffer.pushAll, MetricsBuffer.push_capacity] using h

/-- Unfolding a push sequence at its last push. -/
theorem MetricsBuffer.pushAll_snoc (buf : MetricsBuffer) (snaps : List MetricsSnapshot)
    (s : MetricsSnapshot) :
    buf.pushAll (snaps ++ [s]) = (buf.pushAll snaps).push s := by
  simp [MetricsBuffer.pushAll]

/-- Characterization of the buffer contents after any push sequence into a
fresh buffer of capacity C ≥ 1: exactly the newest min(N, C) snapshots
survive, oldest-first. -/
theorem pushAll_new_inner (C : Nat) (hC : 1 ≤ C) (snaps : List MetricsSnapshot) :
    (MetricsBuffer.pushAll (MetricsBuffer.new C) snaps).inner
      = snaps.drop (snaps.length - C) := by
  induction snaps using List.reverseRecOn with
  | nil => simp [MetricsBuffer.pushAll, MetricsBuffer.new]
  | append_singleton l a ih =>
      rw [MetricsBuffer.pushAll_snoc]
      have hcap : (MetricsBuffer.pushAll (MetricsBuffer.new C) l).capacity = C :=
        MetricsBuffer.pushAll_capacity _ _
      simp only [MetricsBuffer.push, hcap, ih, List.length_drop]
      by_cases h : C ≤ l.length
      · rw [if_pos (by omega)]
        rw [List.tail_drop]
        rw [List.drop_append_of_le_length (by simp; omega)]
        simp
        congr 1
        omega
      · rw [if_neg (by omega)]
        have h0 : l.length - C = 0 := by omega
        have h1 : (l ++ [a]).length - C = 0 := by simp; omega
        rw [h0, h1]
        simp

/-- Dropping strictly fewer elements than the length preserves the last
element. -/
theorem getLast?_drop_of_lt (l : List MetricsSnapshot) (n : Nat) (h : n < l.length) :
    (l.drop n).getLast? = l.getLast? := by
  conv_rhs => rw [← List.take_append_drop n l]
  rw [List.getLast?_append]
  have hne : l.drop n ≠ [] := by
    intro he
    rw [List.drop_eq_nil_iff] at he
    omega
  obtain ⟨x, hx⟩ := Option.ne_none_iff_exists'.mp (by
    rw [Ne, List.getLast?_eq_none_iff]; exact hne)
  rw [hx, Option.or_some]

/-- With no limit, history returns the entire retained window. -/
theorem history_none_eq_inner (buf : MetricsBuffer) : buf.history none = buf.inner := by
  simp [MetricsBuffer.history]

/-- Keeping the newest k elements, phrased through reversal, is the same
as dropping all but the last min(k, length) elements. -/
theorem reverse_take_reverse_eq_drop {α : Type} (l : List α) (k : Nat) :
    (l.reverse.take k).reverse = l.drop (l.length - min k l.length) := by
  rw [List.take_reverse, List.reverse_reverse]
  congr 1
  omega

/-- C1, amended to capacities C ≥ 1: after pushing any sequence of
snapshots into a fresh buffer of capacity C ≥ 1, the length is at most C,
pushing N > C snapshots leaves exactly C entries, the contents are the
newest min(N, C) snapshots in oldest-first order, and latest() is the last
pushed snapshot. (At C = 0 the eviction branch pops from an already empty
deque and then pushes, so one entry remains and length ≤ capacity fails;
see the counterexample.) -/
theorem c1_bounded_history_fifo (C : Nat) (hC : 1 ≤ C) (snaps : List MetricsSnapshot) :
    (MetricsBuffer.pushAll (MetricsBuffer.new C) snaps).inner.length ≤ C
    ∧ (C < snaps.length → (MetricsBuffer.pushAll (MetricsBuffer.new C) snaps).inner.length = C)
    ∧ (MetricsBuffer.pushAll (MetricsBuffer.new C) snaps).inner
        = snaps.drop (snaps.length - C)
    ∧ (MetricsBuffer.pushAll (MetricsBuffer.new C) snaps).latest = snaps.getLast? := by
  have hi := pushAll_new_inner C hC snaps
  refine ⟨?_, ?_, hi, ?_⟩
  · rw [hi, List.length_drop]; omega
  · intro h; rw [hi, List.length_drop]; omega
  · rw [MetricsBuffer.latest, hi]
    rcases snaps with _ | ⟨x, xs⟩
    · simp
    · exact getLast?_drop_of_lt _ _ (by simp; omega)

/-- Counterexample to C1 as stated: with capacity 0, a single push leaves
length 1 > capacity, because MetricsBuffer::push pops the front of the
already-empty deque and then pushes unconditionally. -/
theorem c1_capacity_zero_counterexample :
    ¬ (((MetricsBuffer.new 0).push (demoSnapshot 1)).inner.length
        ≤ (MetricsBuffer.new 0).capacity) := by decide

/-- Witness for c1_bounded_history_fifo at capacity 3 and pushed
timestamps 1, 2, 3, 4: the contents are [2, 3, 4] and latest() is 4. -/
theorem c1_bounded_history_fifo_witness :
    (MetricsBuffer.pushAll (MetricsBuffer.new 3)
        [demoSnapshot 1, demoSnapshot 2, demoSnapshot 3, demoSnapshot 4]).inner
      = [demoSnapshot 2, demoSnapshot 3, demoSnapshot 4]
    ∧ (MetricsBuffer.pushAll (MetricsBuffer.new 3)
        [demoSnapshot 1, demoSnapshot 2, demoSnapshot 3, demoSnapshot 4]).latest
      = some (demoSnapshot 4) := by
  have h := c1_bounded_history_fifo 3 (by decide)
      [demoSnapshot 1, demoSnapshot 2, demoSnapshot 3, demoSnapshot 4]
  exact ⟨h.2.2.1.trans (by decide), h.2.2.2.trans (by decide)⟩

/-- C9: latest() is exactly the last element of history(None): both are
empty precisely when no snapshot is retained, and otherwise latest()
equals the final, newest entry of the full history. -/
theorem c9_latest_last_of_full_history (buf : MetricsBuffer) :
    buf.latest = (buf.history none).getLast?
    ∧ (buf.latest = none ↔ buf.history none = []) := by
  rw [history_none_eq_inner]
  exact ⟨rfl, List.getLast?_eq_none_iff⟩

/-- C10: history(Some(limit)) is total and returns exactly
min(limit, length) snapshots, a suffix (the newest entries, oldest-first)
of the retained window; limit 0 yields the empty sequence and any limit ≥
length yields the entire window, identical to history(None). -/
theorem c10_history_limit_total (buf : MetricsBuffer) (k : Nat) :
    (buf.history (some k)).length = min k buf.inner.length
    ∧ (buf.history (some k)).IsSuffix (buf.history none)
    ∧ (k = 0 → buf.history (some k) = [])
    ∧ (buf.inner.length ≤ k → buf.history (some k) = buf.history none) := by
  refine ⟨?_, ?_, ?_, ?_⟩
  · simp only [MetricsBuffer.history, Option.getD_some, List.length_drop]
    omega
  · rw [history_none_eq_inner]
    exact List.drop_suffix _ _
  · intro h
    subst h
    simp [MetricsBuffer.history]
  · intro h
    rw [history_none_eq_inner]
    simp only [MetricsBuffer.history, Option.getD_some]
    rw [Nat.min_eq_right h, Nat.sub_self, List.drop_zero]

/-- Witness for c10_history_limit_total on the two-snapshot demo buffer:
limit 0 yields the empty sequence and limit 5 (beyond the length) yields
the entire retained window. -/
theorem c10_history_limit_total_witness :
    demoBuf2.history (some 0) = [] ∧ demoBuf2.history (some 5) = demoBuf2.history none :=
  ⟨(c10_history_limit_total demoBuf2 0).2.2.1 rfl,
   (c10_history_limit_total demoBuf2 5).2.2.2 (by decide)⟩

/-- C3: both the RPC history operation and the HTTP history read refine
the spec's filter-then-truncate contract — filter the full retained window
by the timestamp predicate first, then keep only the newest limit matching
entries, oldest-first — and on stored timestamps [1000, 2000] with
limit = 1 and since_ms = 1500 both return exactly the 2000 snapshot. -/
theorem c3_filter_then_truncate :
    (∀ (buf : MetricsBuffer) (limit since_ms : Option Nat),
        MetricsRpcServer.history buf limit since_ms
          = spec_rpc_history (buf.history none) limit since_ms)
    ∧ (∀ (buf : MetricsBuffer) (limit since_ms until_ms : Option Nat),
        get_history buf limit since_ms until_ms
          = spec_http_history (buf.history none) limit since_ms until_ms)
    ∧ MetricsRpcServer.history demoBuf2 (some 1) (some 1500) = [demoSnapshot 2000]
    ∧ get_history demoBuf2 (some 1) (some 1500) none = [demoSnapshot 2000] := by
  refine ⟨?_, ?_, by decide, by decide⟩
  · intro buf limit since_ms
    cases since_ms <;> cases limit <;>
      simp [MetricsRpcServer.history, spec_rpc_history, reverse_take_reverse_eq_drop]
  · intro buf limit since_ms until_ms
    have hfilter : ∀ (l : List MetricsSnapshot),
        ((l.filter (fun s =>
            match since_ms with
            | some ts => decide (ts ≤ s.timestamp_ms)
            | none => true)).filter (fun s =>
            match until_ms with
            | some ts => decide (s.timestamp_ms ≤ ts)
            | none => true))
          = l.filter (fun s =>
            (match since_ms with
              | some t => decide (t ≤ s.timestamp_ms)
              | none => true)
            && (match until_ms with
              | some t => decide (s.timestamp_ms ≤ t)
              | none => true)) := by
      intro l
      rw [List.filter_filter]
      apply List.filter_congr
      intro a _
      exact Bool.and_comm _ _
    cases limit <;>
      simp [get_history, spec_http_history, hfilter, reverse_take_reverse_eq_drop]

/-- C2, amended: provided the caller's deadline has not already passed
(the remaining deadline is nonzero), if the buffer's latest snapshot is
strictly newer than since_ms then next_after returns it immediately,
without subscribing to the broadcast relay. (With an already-expired
deadline the code returns no data before even checking the buffer; see
the counterexample.) -/
theorem c2_fast_path (buf : MetricsBuffer) (untilDeadlineNs since_ms timeout_ms : Nat)
    (l : MetricsSnapshot) (hd : untilDeadlineNs ≠ 0)
    (hl : buf.latest = some l) (hts : since_ms < l.timestamp_ms) :
    MetricsRpcServer.next_after_decision buf untilDeadlineNs since_ms timeout_ms
      = NextAfterOutcome.immediate l := by
  have hw : ¬ (min ((max timeout_ms 1) * 1000000) untilDeadlineNs = 0) := by
    have h1 : 1 ≤ max timeout_ms 1 := le_max_right _ _
    omega
  simp only [MetricsRpcServer.next_after_decision, hl, if_neg hd, if_neg hw, if_pos hts]

/-- Counterexample to C2 as stated: with the caller deadline already
passed (remaining deadline 0), the buffered latest snapshot 2000 is newer
than since_ms = 1000 for any timeout, yet next_after does not return it —
the deadline check runs before the fast path and yields no data. -/
theorem c2_fast_path_counterexample :
    demoBuf2.latest = some (demoSnapshot 2000)
    ∧ 1000 < (demoSnapshot 2000).timestamp_ms
    ∧ MetricsRpcServer.next_after_decision demoBuf2 0 1000 5000
        ≠ NextAfterOutcome.immediate (demoSnapshot 2000)
    ∧ MetricsRpcServer.next_after_decision demoBuf2 0 1000 5000
        = NextAfterOutcome.noData := by decide

/-- Witness for c2_fast_path: a live one-second deadline, since_ms 1000
and buffered latest 2000 return the snapshot immediately. -/
theorem c2_fast_path_witness :
    MetricsRpcServer.next_after_decision demoBuf2 1000000000 1000 5000
      = NextAfterOutcome.immediate (demoSnapshot 2000) :=
  c2_fast_path demoBuf2 1000000000 1000 5000 (demoSnapshot 2000) (by decide) (by decide)
    (by decide)

/-- C4, amended: the effective wait budget is
min(max(timeout_ms, 1ms), remaining deadline), which is zero exactly when
the caller's deadline has already passed; in that case next_after returns
no data without subscribing to the relay, and it never starts a wait with
a zero budget. (A caller-supplied timeout_ms of 0 alone does not yield a
zero budget: the code clamps it to 1 ms and waits; see the
counterexample.) -/
theorem c4_zero_budget_no_wait (buf : MetricsBuffer) (since_ms timeout_ms untilDeadlineNs : Nat) :
    (untilDeadlineNs = 0 →
      MetricsRpcServer.next_after_decision buf untilDeadlineNs since_ms timeout_ms
        = NextAfterOutcome.noData)
    ∧ (∀ w, MetricsRpcServer.next_after_decision buf untilDeadlineNs since_ms timeout_ms
        = NextAfterOutcome.subscribeAndWait w → 0 < w) := by
  constructor
  · intro h
    subst h
    simp [MetricsRpcServer.next_after_decision]
  · intro w hw
    simp only [MetricsRpcServer.next_after_decision] at hw
    by_cases hd : untilDeadlineNs = 0
    · simp [hd] at hw
    · rw [if_neg hd] at hw
      by_cases hz : min ((max timeout_ms 1) * 1000000) untilDeadlineNs = 0
      · rw [if_pos hz] at hw
        exact absurd hw (by simp)
      · rw [if_neg hz] at hw
        rcases hmatch : buf.latest with _ | l
        · rw [hmatch] at hw
          simp at hw
          omega
        · rw [hmatch] at hw
          by_cases hts : since_ms < l.timestamp_ms
          · simp [hts] at hw
          · simp [hts] at hw
            omega

/-- Counterexample to C4 as stated: with timeout_ms = 0 and a one-second
remaining deadline, the claim's wait budget min(timeout_ms, remaining) is
zero (0 = min(0 ms, 1000 ms)), yet the code does not return no data: it
clamps the timeout to 1 ms and subscribes to the relay with a
1,000,000 ns wait. -/
theorem c4_zero_budget_counterexample :
    min 0 1000 = 0
    ∧ MetricsRpcServer.next_after_decision (MetricsBuffer.new 10) 1000000000 0 0
      = NextAfterOutcome.subscribeAndWait 1000000 := by decide

/-- Witness for c4_zero_budget_no_wait: an expired deadline returns no
data at once. -/
theorem c4_zero_budget_no_wait_witness :
    MetricsRpcServer.next_after_decision (MetricsBuffer.new 10) 0 5 1000
      = NextAfterOutcome.noData :=
  (c4_zero_budget_no_wait (MetricsBuffer.new 10) 5 1000 0).1 rfl

/-- C5, amended: on an HTTP bind failure the client subsystem logs the
error and signals the process-wide cancellation token, and does not crash;
on an RPC bind failure the server subsystem logs the error and terminates
only itself without crashing, but does not signal the cancellation token
(the other subsystems keep running until an external shutdown signal). -/
theorem c5_bind_failure_handling :
    SubsystemEffect.logError ∈ run_rpc_server_bind_error_effects
    ∧ SubsystemEffect.panicCrash ∉ run_rpc_server_bind_error_effects
    ∧ SubsystemEffect.cancelToken ∉ run_rpc_server_bind_error_effects
    ∧ SubsystemEffect.logError ∈ client_http_bind_error_effects
    ∧ SubsystemEffect.cancelToken ∈ client_http_bind_error_effects
    ∧ SubsystemEffect.panicCrash ∉ client_http_bind_error_effects := by decide

/-- Counterexample to C5 as stated: the RPC bind-error arm never cancels
the process-wide token — it only logs and returns. -/
theorem c5_rpc_no_cancel_counterexample :
    SubsystemEffect.cancelToken ∉ run_rpc_server_bind_error_effects := by decide

/-- C6: on every non-first tick that publishes a snapshot (positive
elapsed time), the published RX rate is exactly 0 when the cumulative RX
counter decreased, equals (current − previous) / dt when it did not
decrease, and is never negative; likewise for TX. -/
theorem c6_rate_reset_nonneg (config : AggregatorConfig) (st : AggState) (raw : RawSample)
    (hfirst : st.is_first = false) (hdt : 0 < raw.elapsed_secs) :
    ∃ snap st2,
      Aggregator.tick config st raw = (some snap, st2)
      ∧ (raw.rx_total < st.last_rx_total → snap.network.rx_bytes_per_sec = 0)
      ∧ (st.last_rx_total ≤ raw.rx_total →
          snap.network.rx_bytes_per_sec
            = ((raw.rx_total : ℚ) - (st.last_rx_total : ℚ)) / raw.elapsed_secs)
      ∧ 0 ≤ snap.network.rx_bytes_per_sec
      ∧ (raw.tx_total < st.last_tx_total → snap.network.tx_bytes_per_sec = 0)
      ∧ (st.last_tx_total ≤ raw.tx_total →
          snap.network.tx_bytes_per_sec
            = ((raw.tx_total : ℚ) - (st.last_tx_total : ℚ)) / raw.elapsed_secs)
      ∧ 0 ≤ snap.network.tx_bytes_per_sec := by
  have hne : ¬ (raw.elapsed_secs ≤ 0) := not_le.mpr hdt
  simp only [Aggregator.tick, hfirst, Bool.false_eq_true, if_false, if_neg hne]
  refine ⟨_, _, rfl, ?_, ?_, ?_, ?_, ?_, ?_⟩ <;> dsimp only
  · intro h
    rw [if_neg (not_le.mpr h)]
  · intro h
    rw [if_pos h, Nat.cast_sub h]
  · split
    · exact div_nonneg (by positivity) hdt.le
    · exact le_refl 0
  · intro h
    rw [if_neg (not_le.mpr h)]
  · intro h
    rw [if_pos h, Nat.cast_sub h]
  · split
    · exact div_nonneg (by positivity) hdt.le
    · exact le_refl 0

/-- Witness for c6_rate_reset_nonneg on the demo tick: RX decreased from
100 to 40 (rate 0) while TX grew from 50 to 70 over 2 seconds (rate 10). -/
theorem c6_rate_reset_nonneg_witness :
    ∃ snap st2,
      Aggregator.tick demoConfig demoAggState demoRawSample = (some snap, st2)
      ∧ (demoRawSample.rx_total < demoAggState.last_rx_total →
          snap.network.rx_bytes_per_sec = 0)
      ∧ (demoAggState.last_rx_total ≤ demoRawSample.rx_total →
          snap.network.rx_bytes_per_sec
            = ((demoRawSample.rx_total : ℚ) - (demoAggState.last_rx_total : ℚ))
                / demoRawSample.elapsed_secs)
      ∧ 0 ≤ snap.network.rx_bytes_per_sec
      ∧ (demoRawSample.tx_total < demoAggState.last_tx_total →
          snap.network.tx_bytes_per_sec = 0)
      ∧ (demoAggState.last_tx_total ≤ demoRawSample.tx_total →
          snap.network.tx_bytes_per_sec
            = ((demoRawSample.tx_total : ℚ) - (demoAggState.last_tx_total : ℚ))
                / demoRawSample.elapsed_secs)
      ∧ 0 ≤ snap.network.tx_bytes_per_sec :=
  c6_rate_reset_nonneg demoConfig demoAggState demoRawSample rfl (by norm_num [demoRawSample])

/-- C7: the first tick of a run (is_first state, any baseline counters)
always publishes a snapshot, and that snapshot carries RX and TX rates
exactly 0, regardless of the counter readings and of the synthesized
warm-up dt. -/
theorem c7_warmup_zero_rates (config : AggregatorConfig) (rx tx : Nat) (raw : RawSample) :
    ((Aggregator.tick config (AggState.initial rx tx) raw).1.map
        (fun s => (s.network.rx_bytes_per_sec, s.network.tx_bytes_per_sec))) = some (0, 0) := by
  have hdt : ¬ (max ((config.interval_ms : ℚ) / 1000) (1 / 1000) ≤ 0) := by
    push_neg
    exact lt_of_lt_of_le (by norm_num) (le_max_right _ _)
  have h1 : (AggState.initial rx tx).is_first = true := rfl
  simp only [Aggregator.tick, h1, if_true, if_neg hdt, Option.map_some]
  rfl

/-- C8: every snapshot the aggregator tick publishes carries a
total_usage_pct equal to the arithmetic mean of the per-core percentages
it carries, and 0 when the per-core sequence is empty. -/
theorem c8_total_is_mean (config : AggregatorConfig) (st : AggState) (raw : RawSample)
    (snap : AggSnapshot) (st2 : AggState)
    (h : Aggregator.tick config st raw = (some snap, st2)) :
    snap.cpu.total_usage_pct = spec_mean snap.cpu.per_core_usage_pct := by
  by_cases hdt : (if st.is_first then max ((config.interval_ms : ℚ) / 1000) (1 / 1000)
      else raw.elapsed_secs) ≤ 0
  · rw [Aggregator.tick, if_pos hdt] at h
    exact absurd h (by simp)
  · rw [Aggregator.tick, if_neg hdt] at h
    have h1 := congrArg Prod.fst h
    simp only at h1
    obtain rfl := Option.some.inj h1
    dsimp only
    rw [spec_mean]
    by_cases hpc : raw.per_core.isEmpty
    · rw [if_pos hpc,
        if_pos (List.isEmpty_iff_length_eq_zero.mp hpc)]
    · rw [if_neg hpc,
        if_neg (fun hz => hpc (List.isEmpty_iff_length_eq_zero.mpr hz))]

/-- Witness for c8_total_is_mean on the demo tick: the published snapshot
has per-core usages [10, 20] and total 15. -/
theorem c8_total_is_mean_witness :
    demoAggSnapshot.cpu.total_usage_pct = spec_mean demoAggSnapshot.cpu.per_core_usage_pct :=
  c8_total_is_mean demoConfig demoAggState demoRawSample demoAggSnapshot
    { is_first := false, last_rx_total := 40, last_tx_total := 70 } (by
      simp [Aggregator.tick, demoConfig, demoAggState, demoRawSample, demoAggSnapshot]
      norm_num)
